import Mathlib

/-!
Shallow embedding of the REST API lifecycle and request-dispatch core of the
grid daemon (src/daemon/src/rest_api/mod.rs), the CLI migration entry point
(src/cli/src/actions/database.rs), and the spec-side descriptions they are
checked against. Rust `Result` becomes `Except`, machine effects (binding a
listener, channel send/receive, thread spawning) become explicit outcome
parameters and returned observations, and external collaborators become
function parameters.
-/

namespace Grid

/-- Modelled from the spec: `crate::config::Endpoint` is declared outside the
visible sources. Section 3 of the spec describes it as a closed variant,
`SharedLedger` or `CircuitScoped`, immutable for the process lifetime. -/
inductive Endpoint where
  | SharedLedger
  | CircuitScoped
  deriving DecidableEq, Repr

/-- Modelled from the spec: the guard's rejection texts speak of "sawtooth
mode" when an id is present in shared-ledger deployments and of "splinter
mode" when an id is absent in circuit-scoped deployments, so `is_sawtooth`
holds exactly on `SharedLedger`. -/
def Endpoint.is_sawtooth : Endpoint → Bool
  | .SharedLedger => true
  | .CircuitScoped => false

/-- `QueryServiceId` from mod.rs line 76: the deserialized query structure with
an optional `service_id` field. -/
structure QueryServiceId where
  service_id : Option String
  deriving DecidableEq, Repr

/-- `AcceptServiceIdParam` from mod.rs line 80: the guard token produced on
accept. In the source it is a unit struct with no fields, so the embedded type
has a single value. -/
inductive AcceptServiceIdParam where
  | mk
  deriving DecidableEq, Repr

/-- Actix errors as produced by this code: `ErrorBadRequest` responds 400 and
`ErrorInternalServerError` responds 500, each wrapping a message. -/
inductive ActixError where
  | badRequest (msg : String)
  | internalServerError (msg : String)
  deriving DecidableEq, Repr

/-- The HTTP status code of the response an `ActixError` produces. -/
def ActixError.statusCode : ActixError → Nat
  | .badRequest _ => 400
  | .internalServerError _ => 500

/-- `AcceptServiceIdParam::from_request` (mod.rs lines 87-112). `appData`
models `req.app_data::<Endpoint>()`: the endpoint attached to the app, if any.
`query` models the outcome of `web::Query::<QueryServiceId>::from_query` on
the request's query string: `none` when deserialization fails. The source
checks app data first, then query parsing, then the two mode-mismatch cases,
and otherwise accepts. -/
def AcceptServiceIdParam.from_request (appData : Option Endpoint)
    (query : Option QueryServiceId) : Except ActixError AcceptServiceIdParam :=
  match appData with
  | none => .error (.internalServerError "App state not found")
  | some endpoint =>
    match query with
    | none => .error (.badRequest "Malformed query param")
    | some q =>
      let service_id := q.service_id
      if service_id.isSome && endpoint.is_sawtooth then
        .error (.badRequest "Circuit ID present, but grid is running in sawtooth mode")
      else if service_id.isNone && !endpoint.is_sawtooth then
        .error (.badRequest "Circuit ID is not present, but grid is running in splinter mode")
      else
        .ok .mk

/-- Classification of a guard result: accepted, rejected with a 400-class
(client) error, or rejected with some other class of error. -/
inductive GuardOutcome where
  | accepted
  | rejected400
  | rejectedOther
  deriving DecidableEq, Repr

/-- Classify a `from_request` result by acceptance and status-code class. -/
def guardOutcome : Except ActixError AcceptServiceIdParam → GuardOutcome
  | .ok _ => .accepted
  | .error e =>
    if 400 ≤ e.statusCode ∧ e.statusCode < 500 then .rejected400 else .rejectedOther

/-- The validation matrix of spec section 4.3, written from the spec's words:
id present in `SharedLedger` mode rejects 400, id absent in `CircuitScoped`
mode rejects 400, the other two cases accept. -/
def specMatrixOutcome (present : Bool) (e : Endpoint) : GuardOutcome :=
  match present, e with
  | true, .SharedLedger => .rejected400
  | false, .CircuitScoped => .rejected400
  | true, .CircuitScoped => .accepted
  | false, .SharedLedger => .accepted

/-- HTTP methods used by this router. -/
inductive Method where
  | GET
  | POST
  deriving DecidableEq, Repr

/-- The handler functions imported and registered by mod.rs lines 25-29;
opaque names, since the handlers themselves are external collaborators. -/
inductive Handler where
  | submit_batches
  | get_batch_statuses
  | list_agents
  | fetch_agent
  | list_organizations
  | fetch_organization
  | list_products
  | fetch_product
  | list_grid_schemas
  | fetch_grid_schema
  | list_records
  | fetch_record
  | fetch_record_property
  deriving DecidableEq, Repr

/-- One registered route: method, full path, bound handler. -/
structure Route where
  method : Method
  path : String
  handler : Handler
  deriving DecidableEq, Repr

/-- `web::resource(path).route(method.to(handler))`: registers one route at
`path`. -/
def resource (path : String) (method : Method) (handler : Handler) : List Route :=
  [{ method := method, path := path, handler := handler }]

/-- `web::scope(p).service(children)`: nests its children under the path
segment `p`. -/
def scope (p : String) (children : List Route) : List Route :=
  children.map fun r => { r with path := p ++ r.path }

/-- The route registrations of the `App::new()` chain in `run` (mod.rs lines
150-193), in registration order and with the source's resource/scope nesting. -/
def appRoutes : List Route :=
  resource "/batches" .POST .submit_batches ++
  resource "/batch_statuses" .GET .get_batch_statuses ++
  scope "/agent"
    (resource "" .GET .list_agents ++
     resource "/{public_key}" .GET .fetch_agent) ++
  scope "/organization"
    (resource "" .GET .list_organizations ++
     resource "/{id}" .GET .fetch_organization) ++
  scope "/product"
    (resource "" .GET .list_products ++
     resource "/{id}" .GET .fetch_product) ++
  scope "/schema"
    (resource "" .GET .list_grid_schemas ++
     resource "/{name}" .GET .fetch_grid_schema) ++
  scope "/record"
    (resource "" .GET .list_records ++
     scope "/{record_id}"
       (resource "" .GET .fetch_record ++
        resource "/property/{property_name}" .GET .fetch_record_property))

/-- The thirteen method+path routes as enumerated in spec section 6, written
from the spec's words, each with the handler the spec's route list names. -/
def specRoutes : List Route :=
  [{ method := .POST, path := "/batches", handler := .submit_batches },
   { method := .GET, path := "/batch_statuses", handler := .get_batch_statuses },
   { method := .GET, path := "/agent", handler := .list_agents },
   { method := .GET, path := "/agent/{public_key}", handler := .fetch_agent },
   { method := .GET, path := "/organization", handler := .list_organizations },
   { method := .GET, path := "/organization/{id}", handler := .fetch_organization },
   { method := .GET, path := "/product", handler := .list_products },
   { method := .GET, path := "/product/{id}", handler := .fetch_product },
   { method := .GET, path := "/schema", handler := .list_grid_schemas },
   { method := .GET, path := "/schema/{name}", handler := .fetch_grid_schema },
   { method := .GET, path := "/record", handler := .list_records },
   { method := .GET, path := "/record/{record_id}", handler := .fetch_record },
   { method := .GET, path := "/record/{record_id}/property/{property_name}",
     handler := .fetch_record_property }]

/-- The `App` value built by the closure passed to `HttpServer::new` inside
`run` (mod.rs lines 146-193): it attaches the endpoint as app data
(`.app_data(endpoint.clone())`, line 149) and registers the routes. -/
structure AppDef where
  appEndpoint : Option Endpoint
  routes : List Route
  deriving DecidableEq, Repr

/-- The app factory closure of `run`: for a given process endpoint it always
produces an app whose app data holds that endpoint and whose routes are
`appRoutes`. -/
def appFactory (endpoint : Endpoint) : AppDef :=
  { appEndpoint := some endpoint, routes := appRoutes }

/-- `ConnectionPool` handle: cloneable, all clones denote the same underlying
pool, so `clone` is the identity on the handle's denotation. -/
structure ConnectionPool where
  poolId : Nat
  deriving DecidableEq, Repr

/-- `Clone::clone` on the pool handle: a shallow reference-counted copy
denoting the same pool. -/
def ConnectionPool.clone (p : ConnectionPool) : ConnectionPool := p

/-- `DbExecutor` from routes: each instance holds the connection pool it was
constructed with. -/
structure DbExecutor where
  pool : ConnectionPool
  deriving DecidableEq, Repr

/-- `DbExecutor::new(pool)`. -/
def DbExecutor.new (pool : ConnectionPool) : DbExecutor := { pool := pool }

/-- `SYNC_ARBITER_THREAD_COUNT` from mod.rs line 41. -/
def SYNC_ARBITER_THREAD_COUNT : Nat := 2

/-- The address of a started sync arbiter: how many worker threads it runs and
the workers the factory produced. -/
structure SyncArbiterAddr where
  threads : Nat
  workers : List DbExecutor
  deriving DecidableEq, Repr

/-- Semantics of actix `SyncArbiter::start(threads, factory)`: spawns exactly
`threads` worker threads, each constructed by a call of the factory, and
returns their shared dispatch address. -/
def SyncArbiter.start (threads : Nat) (factory : Unit → DbExecutor) : SyncArbiterAddr :=
  { threads := threads, workers := List.replicate threads (factory ()) }

/-- The boxed `BatchSubmitter` trait object: opaque to this core. -/
structure BatchSubmitter where
  submitterId : Nat
  deriving DecidableEq, Repr

/-- `AppState` from mod.rs lines 43-46. -/
structure AppState where
  batch_submitter : BatchSubmitter
  database_connection : SyncArbiterAddr

/-- `AppState::new` (mod.rs lines 50-63): starts the sync arbiter with
`SYNC_ARBITER_THREAD_COUNT` threads, the factory building each `DbExecutor`
from a clone of the captured connection pool. -/
def AppState.new (batch_submitter : BatchSubmitter)
    (connection_pool : ConnectionPool) : AppState :=
  { batch_submitter := batch_submitter
    database_connection :=
      SyncArbiter.start SYNC_ARBITER_THREAD_COUNT fun _ =>
        DbExecutor.new connection_pool.clone }

/-- The `dev::Server` control handle `run` sends back over the startup
channel, together with whether the server loop is still running. -/
structure DevServer where
  serverId : Nat
  running : Bool
  deriving DecidableEq, Repr

/-- How a `server.stop(graceful)` future resolved. Both constructors are
resolutions of the future: neither is an error and neither is a hang. -/
inductive StopOutcome where
  | stoppedAfterDrain (graceful : Bool)
  | resolvedImmediately
  deriving DecidableEq, Repr

/-- Semantics of `dev::Server::stop(graceful)` from the actix server the code
links against: the handle sends a stop command to the server loop and awaits a
completion signal; when the loop has already exited, the command send fails,
the completion sender is dropped, and the awaited future resolves immediately.
In both cases the future resolves to unit: it never returns an error and, as a
total function here, never fails to resolve. -/
def DevServer.stop (s : DevServer) (graceful : Bool) : DevServer × StopOutcome :=
  if s.running then ({ s with running := false }, .stoppedAfterDrain graceful)
  else (s, .resolvedImmediately)

/-- `RestApiShutdownHandle` from mod.rs lines 115-117. -/
structure RestApiShutdownHandle where
  server : DevServer
  deriving DecidableEq, Repr

/-- `RestApiShutdownHandle::shutdown` (mod.rs lines 120-122):
`block_on(self.server.stop(true))`. Returns the handle over the resulting
server state together with the observed resolution of the stop future. -/
def RestApiShutdownHandle.shutdown (h : RestApiShutdownHandle) :
    RestApiShutdownHandle × StopOutcome :=
  let su := h.server.stop true
  ({ server := su.1 }, su.2)

/-- Modelled from the spec: `rest_api/error.rs` is outside the visible
sources. The spec's error taxonomy names `StartUpError` for bind and channel
handoff failures ("on bind failure, propagates as `StartUpError`"); other
failures of the spawned thread's runtime are grouped as `RuntimeError`. -/
inductive RestApiServerError where
  | StartUpError (msg : String)
  | RuntimeError (msg : String)
  deriving DecidableEq, Repr

/-- Display text of `std::sync::mpsc::SendError`, interpolated into the
`Unable to send Server Addr` message. -/
def sendErrorDisplay : String := "sending on a closed channel"

/-- Display text of `std::sync::mpsc::RecvError`, interpolated into the
`Unable to receive Server Addr` message. -/
def recvErrorDisplay : String := "receiving on an empty and disconnected channel"

/-- The body of the `GridRestApi` thread spawned by `run` (mod.rs lines
142-207). `bindResult` is the outcome of `.bind(bind_url)` (on failure the `?`
propagates it, converted to `StartUpError` per the spec's taxonomy);
`receiverAlive` is whether the channel's receiver still exists when `tx.send`
runs; `sysRunResult` is the outcome of `sys.run()`. Returns the message placed
on the channel, if the send happened, and the thread's return value. -/
def spawnedThread (bindResult : Except String DevServer) (receiverAlive : Bool)
    (sysRunResult : Except String Unit) :
    Option DevServer × Except RestApiServerError Unit :=
  match bindResult with
  | .error e => (none, .error (.StartUpError e))
  | .ok addr =>
    if receiverAlive then
      match sysRunResult with
      | .error e => (some addr, .error (.RuntimeError e))
      | .ok _ => (some addr, .ok ())
    else
      (none, .error (.StartUpError ("Unable to send Server Addr: " ++ sendErrorDisplay)))

/-- `run` (mod.rs lines 125-215), after spawning: the caller holds `rx` while
blocking on `rx.recv()`, so the thread runs with the receiver alive. By mpsc
semantics `recv` returns the message exactly when the thread sent one, and
returns `RecvError` once the sender is dropped without sending — the thread
always terminates by sending or by dropping `tx`, so `recv` always returns and
the model is a total function. On a received server handle, `run` returns the
shutdown handle over it together with the join handle's eventual value; on a
receive failure it returns `StartUpError`. -/
def run (bindResult : Except String DevServer) (sysRunResult : Except String Unit) :
    Except RestApiServerError (RestApiShutdownHandle × Except RestApiServerError Unit) :=
  match (spawnedThread bindResult true sysRunResult).1 with
  | some server => .ok ({ server := server }, (spawnedThread bindResult true sysRunResult).2)
  | none => .error (.StartUpError ("Unable to receive Server Addr: " ++ recvErrorDisplay))

/-- `PgConnection` as established by diesel: opaque to this core. -/
structure PgConnection where
  connId : Nat
  deriving DecidableEq, Repr

/-- `CliError` from the CLI crate: the variant used by `run_migrations` wraps
the cause's display text as a database error. -/
inductive CliError where
  | DatabaseError (msg : String)
  deriving DecidableEq, Repr

/-- `run_migrations` (database.rs lines 21-30). The external collaborators
`PgConnection::establish` and `run_postgres_migrations` are passed as function
parameters; each is applied once, its error mapped into
`CliError::DatabaseError`, and on success of both the function returns unit. -/
def run_migrations (establish : String → Except String PgConnection)
    (run_postgres_migrations : PgConnection → Except String Unit)
    (database_url : String) : Except CliError Unit :=
  match establish database_url with
  | .error err => .error (.DatabaseError err)
  | .ok connection =>
    match run_postgres_migrations connection with
    | .error err => .error (.DatabaseError err)
    | .ok _ => .ok ()

/-- C1: for every endpoint mode and every value of `service_id` presence (with
the endpoint attached to the request's app data and the query string parsed),
the guard's accept/reject decision matches the spec's validation matrix:
reject with a 400-class error when the id is present in `SharedLedger` mode or
absent in `CircuitScoped` mode, accept in the other two cases. -/
theorem guard_decision_matches_validation_matrix (e : Endpoint) (sid : Option String) :
    guardOutcome (AcceptServiceIdParam.from_request (some e) (some { service_id := sid })) =
      specMatrixOutcome sid.isSome e := by
  cases e <;> cases sid <;> rfl

/-- C2: when binding the listener fails, `run` returns a `StartUpError` to its
caller (the blocking receive observes the failure, since the thread exits
without sending), and the spawned thread itself exits with the bind failure as
a `StartUpError`; `run` being a total function, the call returns a value
rather than hanging. -/
theorem bind_failure_yields_startup_error (msg : String) (sysRunResult : Except String Unit) :
    run (.error msg) sysRunResult =
      .error (.StartUpError ("Unable to receive Server Addr: " ++ recvErrorDisplay)) ∧
    (spawnedThread (.error msg) true sysRunResult).2 = .error (.StartUpError msg) ∧
    (spawnedThread (.error msg) true sysRunResult).1 = none :=
  ⟨rfl, rfl, rfl⟩

/-- C3: if the send on the one-shot startup channel fails (receiver dropped),
the spawned thread returns a `StartUpError`; if the receive fails (the thread
dropped the sender without sending), `run` returns a `StartUpError`. Neither
failure is silently dropped. -/
theorem startup_channel_failures_yield_startup_error :
    (∀ (s : DevServer) (r : Except String Unit),
      (spawnedThread (.ok s) false r).2 =
        .error (.StartUpError ("Unable to send Server Addr: " ++ sendErrorDisplay))) ∧
    (∀ (b : Except String DevServer) (r : Except String Unit),
      (spawnedThread b true r).1 = none →
        run b r =
          .error (.StartUpError ("Unable to receive Server Addr: " ++ recvErrorDisplay))) := by
  constructor
  · intro s r
    rfl
  · intro b r h
    unfold run
    rw [h]

/-- C3 witness: with a concrete bind failure, the thread sends nothing and
`run` returns the receive-side `StartUpError`. -/
theorem startup_channel_failures_yield_startup_error_witness :
    run (.error "address already in use") (.ok ()) =
      .error (.StartUpError ("Unable to receive Server Addr: " ++ recvErrorDisplay)) :=
  startup_channel_failures_yield_startup_error.2 (.error "address already in use") (.ok ()) rfl

/-- C4: a second `shutdown()` after a completed first one is safe: it leaves
the shutdown handle unchanged (a no-op on the server state), resolves
immediately reporting already-stopped rather than erroring or hanging, and the
server remains stopped. -/
theorem shutdown_idempotent (h : RestApiShutdownHandle) :
    (h.shutdown.1).shutdown.1 = h.shutdown.1 ∧
    (h.shutdown.1).shutdown.2 = StopOutcome.resolvedImmediately ∧
    (h.shutdown.1).shutdown.1.server.running = false := by
  obtain ⟨⟨n, running⟩⟩ := h
  cases running <;> exact ⟨rfl, rfl, rfl⟩

/-- C5 counterexample: the guard token cannot carry the circuit identifier.
`AcceptServiceIdParam` is a unit struct, so the guard's entire result for two
requests with different identifiers, both accepted in `CircuitScoped` mode, is
one and the same value — no function of the produced token can recover which
identifier the request carried — even though the identifiers differ. -/
theorem guard_token_cannot_carry_id :
    AcceptServiceIdParam.from_request (some .CircuitScoped) (some { service_id := some "abc" }) =
      AcceptServiceIdParam.from_request (some .CircuitScoped) (some { service_id := some "xyz" }) ∧
    ("abc" : String) ≠ "xyz" :=
  ⟨rfl, by decide⟩

/-- C5 amended: when `service_id` is present and the endpoint mode is
`CircuitScoped`, the guard accepts the request; the guard token it produces is
opaque and carries no data (every two tokens are equal), and the identifier
remains available to the handler through the parsed query structure rather
than through the token. -/
theorem guard_accepts_circuit_scoped_with_opaque_token (sid : String) :
    AcceptServiceIdParam.from_request (some .CircuitScoped) (some { service_id := some sid }) =
      .ok .mk ∧
    (∀ t u : AcceptServiceIdParam, t = u) ∧
    (QueryServiceId.mk (some sid)).service_id = some sid := by
  refine ⟨rfl, ?_, rfl⟩
  intro t u
  cases t
  cases u
  rfl

/-- C6: whatever the endpoint mode, a request whose query string fails to
parse into `QueryServiceId` is rejected with the 400-class error "Malformed
query param"; the rejection is the same in both modes, so it precedes any mode
validation. -/
theorem malformed_query_rejected_before_mode_validation (e : Endpoint) :
    AcceptServiceIdParam.from_request (some e) none =
      .error (.badRequest "Malformed query param") ∧
    (ActixError.badRequest "Malformed query param").statusCode = 400 := by
  cases e <;> exact ⟨rfl, rfl⟩

/-- C7: the routes registered by `run`'s `App` chain are exactly the thirteen
method+path routes of the spec's external-interface list, in order, each bound
to its corresponding handler. -/
theorem router_registers_exactly_the_thirteen_routes :
    appRoutes = specRoutes ∧ appRoutes.length = 13 := by
  constructor <;> rfl

/-- C8: `AppState::new` always starts the sync arbiter with
`SYNC_ARBITER_THREAD_COUNT = 2` worker threads, fixed at construction, each
worker a `DbExecutor` built from a clone of the shared connection pool. -/
theorem app_state_starts_two_workers_from_pool_clones
    (bs : BatchSubmitter) (pool : ConnectionPool) :
    (AppState.new bs pool).database_connection.threads = 2 ∧
    (AppState.new bs pool).database_connection.workers =
      List.replicate 2 (DbExecutor.new pool.clone) ∧
    SYNC_ARBITER_THREAD_COUNT = 2 :=
  ⟨rfl, rfl, rfl⟩

/-- C9: `run_migrations` returns `Err` wrapping the cause as a database error
exactly when establishing the connection fails or when applying the
migrations fails — each collaborator applied once, its single outcome
deciding the result, with no retry — and returns `Ok(())` otherwise. -/
theorem run_migrations_error_exactly_on_establish_or_migrate_failure
    (establish : String → Except String PgConnection)
    (migrate : PgConnection → Except String Unit) (url : String) :
    (∀ e, establish url = .error e →
      run_migrations establish migrate url = .error (.DatabaseError e)) ∧
    (∀ c e, establish url = .ok c → migrate c = .error e →
      run_migrations establish migrate url = .error (.DatabaseError e)) ∧
    (∀ c, establish url = .ok c → migrate c = .ok () →
      run_migrations establish migrate url = .ok ()) := by
  refine ⟨?_, ?_, ?_⟩
  · intro e he
    unfold run_migrations
    rw [he]
  · intro c e hc hm
    unfold run_migrations
    rw [hc]
    dsimp only
    rw [hm]
  · intro c hc hm
    unfold run_migrations
    rw [hc]
    dsimp only
    rw [hm]

/-- C9 witness: concrete runs through each branch of the characterization. -/
theorem run_migrations_error_exactly_on_establish_or_migrate_failure_witness :
    run_migrations (fun _ => .error "connection refused") (fun _ => .ok ()) "postgres://db" =
      .error (.DatabaseError "connection refused") ∧
    run_migrations (fun _ => .ok { connId := 0 }) (fun _ => .error "bad migration") "postgres://db" =
      .error (.DatabaseError "bad migration") ∧
    run_migrations (fun _ => .ok { connId := 0 }) (fun _ => .ok ()) "postgres://db" = .ok () :=
  ⟨(run_migrations_error_exactly_on_establish_or_migrate_failure
      (fun _ => .error "connection refused") (fun _ => .ok ()) "postgres://db").1
      "connection refused" rfl,
   (run_migrations_error_exactly_on_establish_or_migrate_failure
      (fun _ => .ok { connId := 0 }) (fun _ => .error "bad migration") "postgres://db").2.1
      { connId := 0 } "bad migration" rfl rfl,
   (run_migrations_error_exactly_on_establish_or_migrate_failure
      (fun _ => .ok { connId := 0 }) (fun _ => .ok ()) "postgres://db").2.2
      { connId := 0 } rfl rfl⟩

/-- C10: when the `Endpoint` value is absent from the request's app data, the
guard rejects with the 500-class internal server error "App state not found"
(not a 400-class validation error) for every query-parse outcome; and the app
factory `run` installs always attaches the endpoint to the app data, so under
`run` this branch is unreachable. -/
theorem missing_app_state_is_internal_error_and_unreachable_under_run
    (q : Option QueryServiceId) (e : Endpoint) :
    AcceptServiceIdParam.from_request none q =
      .error (.internalServerError "App state not found") ∧
    guardOutcome (AcceptServiceIdParam.from_request none q) = .rejectedOther ∧
    (ActixError.internalServerError "App state not found").statusCode = 500 ∧
    (appFactory e).appEndpoint = some e :=
  ⟨rfl, rfl, rfl, rfl⟩

end Grid
